import Mathlib

set_option maxRecDepth 4096

deriving instance DecidableEq for Except

/-!
Verification of the `gasha` artifact signer/verifier
(`src/python/signer.py`, `src/python/verifier.py`).

The development shallowly embeds the two Python scripts:

* `sha256_of_file` (identical in both scripts) is embedded over a real,
  executable SHA-256 implemented on `List Nat` bytes, together with a model
  of `hashlib`'s incremental update interface.
* Key loading, the signing façade `sign_with_private_key`, the verification
  façade `verify_signature` and both `main`s are embedded with an explicit
  file-system state and a `PyError` type for Python exceptions, keeping the
  source's position of the `try` block and the fact that Python's
  `except Exception` does not catch `SystemExit`.
* The scheme primitives of `cryptography.hazmat` (EdDSA, RSASSA-PSS, ECDSA
  sign/verify) are external library calls; they are modelled as an abstract
  `CryptoLib` bundle, and the attribute surface of the library's public-key
  classes (`verify`, `key_size`) that the verifier's duck-typed dispatch
  probes is modelled per key family from the library's documented API.
-/

/-! ## Bytes and SHA-256 (FIPS 180-4), executable -/

/-- A byte string: a list of naturals, each intended `< 256`. -/
abbrev Bytes := List Nat

/-- Truncate to a 32-bit word. -/
def w32 (x : Nat) : Nat := x % 4294967296

/-- Right rotation of a 32-bit word by `n` (for `0 < n < 32`). -/
def rot32 (n x : Nat) : Nat := w32 ((x >>> n) ||| (x <<< (32 - n)))

/-- SHA-256 `Ch` function. -/
def shaCh (x y z : Nat) : Nat := (x &&& y) ^^^ ((x ^^^ 4294967295) &&& z)

/-- SHA-256 `Maj` function. -/
def shaMaj (x y z : Nat) : Nat := (x &&& y) ^^^ (x &&& z) ^^^ (y &&& z)

/-- SHA-256 big sigma 0. -/
def sigmaA0 (x : Nat) : Nat := rot32 2 x ^^^ rot32 13 x ^^^ rot32 22 x

/-- SHA-256 big sigma 1. -/
def sigmaA1 (x : Nat) : Nat := rot32 6 x ^^^ rot32 11 x ^^^ rot32 25 x

/-- SHA-256 small sigma 0. -/
def sigmaB0 (x : Nat) : Nat := rot32 7 x ^^^ rot32 18 x ^^^ (x >>> 3)

/-- SHA-256 small sigma 1. -/
def sigmaB1 (x : Nat) : Nat := rot32 17 x ^^^ rot32 19 x ^^^ (x >>> 10)

/-- The 64 SHA-256 round constants. -/
def shaK : List Nat :=
  [1116352408, 1899447441, 3049323471, 3921009573, 961987163,
   1508970993, 2453635748, 2870763221, 3624381080, 310598401,
   607225278, 1426881987, 1925078388, 2162078206, 2614888103,
   3248222580, 3835390401, 4022224774, 264347078, 604807628,
   770255983, 1249150122, 1555081692, 1996064986, 2554220882,
   2821834349, 2952996808, 3210313671, 3336571891, 3584528711,
   113926993, 338241895, 666307205, 773529912, 1294757372,
   1396182291, 1695183700, 1986661051, 2177026350, 2456956037,
   2730485921, 2820302411, 3259730800, 3345764771, 3516065817,
   3600352804, 4094571909, 275423344, 430227734, 506948616,
   659060556, 883997877, 958139571, 1322822218, 1537002063,
   1747873779, 1955562222, 2024104815, 2227730452, 2361852424,
   2428436474, 2756734187, 3204031479, 3329325298]

/-- Working state of the SHA-256 compression function: eight 32-bit words. -/
structure H8 where
  a : Nat
  b : Nat
  c : Nat
  d : Nat
  e : Nat
  f : Nat
  g : Nat
  h : Nat

/-- Initial SHA-256 hash value. -/
def shaInit : H8 :=
  ⟨1779033703, 3144134277, 1013904242, 2773480762,
   1359893119, 2600822924, 528734635, 1541459225⟩

/-- One round of the SHA-256 compression function; `kw` is the pair of the
round constant and the scheduled message word. -/
def shaRound (s : H8) (kw : Nat × Nat) : H8 :=
  let t1 := w32 (s.h + sigmaA1 s.e + shaCh s.e s.f s.g + kw.1 + kw.2)
  let t2 := w32 (sigmaA0 s.a + shaMaj s.a s.b s.c)
  ⟨w32 (t1 + t2), s.a, s.b, s.c, w32 (s.d + t1), s.e, s.f, s.g⟩

/-- Extend the 16 block words by `k` further scheduled words. -/
def extendSchedule : List Nat → Nat → List Nat
  | ws, 0 => ws
  | ws, Nat.succ k =>
    let n := ws.length
    let w := w32 (sigmaB1 (ws.getD (n - 2) 0) + ws.getD (n - 7) 0 +
                  sigmaB0 (ws.getD (n - 15) 0) + ws.getD (n - 16) 0)
    extendSchedule (ws ++ [w]) k

/-- Compress one 16-word block into the running hash state. -/
def shaCompress (s : H8) (block : List Nat) : H8 :=
  let ws := extendSchedule block 48
  let t := (shaK.zip ws).foldl shaRound s
  ⟨w32 (s.a + t.a), w32 (s.b + t.b), w32 (s.c + t.c), w32 (s.d + t.d),
   w32 (s.e + t.e), w32 (s.f + t.f), w32 (s.g + t.g), w32 (s.h + t.h)⟩

/-- Fuel-bounded worker for `chunksOf`: structural recursion on the fuel so
that the kernel can evaluate it. -/
def chunksOfGo (n : Nat) : Nat → List α → List (List α)
  | _, [] => []
  | 0, _ :: _ => []
  | fuel + 1, x :: xs => (x :: xs).take n :: chunksOfGo n fuel ((x :: xs).drop n)

/-- Split a list into consecutive chunks of `n` elements (the last chunk may
be shorter); the empty list gives no chunks.  The length of the list is
enough fuel whenever `0 < n`. -/
def chunksOf (n : Nat) (l : List α) : List (List α) :=
  chunksOfGo n l.length l

/-- Big-endian bytes of a 32-bit word. -/
def wordBytes (x : Nat) : Bytes :=
  [x / 16777216 % 256, x / 65536 % 256, x / 256 % 256, x % 256]

/-- Big-endian 8-byte encoding of a length-in-bits counter. -/
def be8 (x : Nat) : Bytes :=
  [x / 72057594037927936 % 256, x / 281474976710656 % 256,
   x / 1099511627776 % 256, x / 4294967296 % 256,
   x / 16777216 % 256, x / 65536 % 256, x / 256 % 256, x % 256]

/-- SHA-256 padding: a `1` bit (byte `0x80`), zeros to 56 mod 64, then the
bit length as a 64-bit big-endian integer. -/
def shaPad (msg : Bytes) : Bytes :=
  let l := msg.length
  let k := (119 - l % 64) % 64
  msg ++ 128 :: List.replicate k 0 ++ be8 (8 * l)

/-- Interpret four bytes as a big-endian 32-bit word. -/
def bytesToWord (b : Bytes) : Nat := b.foldl (fun acc x => acc * 256 + x) 0

/-- SHA-256 of a whole byte string, as the hash of the single full message. -/
def sha256 (msg : Bytes) : Bytes :=
  let blocks := (chunksOf 64 (shaPad msg)).map (fun blk => (chunksOf 4 blk).map bytesToWord)
  let s := blocks.foldl shaCompress shaInit
  wordBytes s.a ++ wordBytes s.b ++ wordBytes s.c ++ wordBytes s.d ++
  wordBytes s.e ++ wordBytes s.f ++ wordBytes s.g ++ wordBytes s.h

/-! ## The incremental `hashlib` interface used by `sha256_of_file` -/

/-- Model of a `hashlib.sha256()` object: the library guarantees that
`digest()` returns the SHA-256 of the concatenation of all bytes fed to
`update`, so the state is the fed byte string. -/
structure HashState where
  data : Bytes

/-- Model of `h.update(chunk)`: append the chunk to the fed bytes. -/
def HashState.update (h : HashState) (chunk : Bytes) : HashState :=
  ⟨h.data ++ chunk⟩

/-- Model of `h.digest()`: SHA-256 of everything fed so far. -/
def HashState.digest (h : HashState) : Bytes := sha256 h.data

/-- The digest loop of `sha256_of_file` on given file contents: feed the file
to a fresh hash object in successive 8192-byte chunks, then take the digest
(`signer.py` lines 13-18, `verifier.py` lines 11-16, identical code). -/
def sha256_of_bytes (content : Bytes) : Bytes :=
  ((chunksOf 8192 content).foldl HashState.update ⟨[]⟩).digest

/-! ## Python exceptions and the file system -/

/-- Python exceptions relevant to the two scripts.  `systemExitMsg` and
`systemExitCode` model `SystemExit`, which derives from `BaseException` only
and is therefore NOT caught by an `except Exception` handler; all other
constructors model `Exception`-derived errors.  The constructors
`roleMismatch` and `unsupportedKeyType` are modelled from the spec: the spec
names `RoleMismatchError` (section 4.2) and `UnsupportedKeyTypeError` as
distinguished errors, but no such exception classes exist anywhere in `src/`;
the embedded code never produces them. -/
inductive PyError where
  | ioError : String → PyError
  | valueError : String → PyError
  | typeError : String → PyError
  | invalidSignature : PyError
  | systemExitMsg : String → PyError
  | systemExitCode : Nat → PyError
  | roleMismatch : PyError
  | unsupportedKeyType : PyError
deriving DecidableEq, Repr

/-- Whether an error is caught by an `except Exception` handler: every
constructor except `SystemExit` (which derives from `BaseException` only). -/
def PyError.isException : PyError → Bool
  | .systemExitMsg _ => false
  | .systemExitCode _ => false
  | _ => true

/-- The key algorithm families `load_pem_private_key` / `load_pem_public_key`
can decode: the three the scripts dispatch on, plus other families the
`cryptography` library recognizes (Ed448, X25519, DSA). -/
inductive KeyFamily where
  | ed25519
  | rsa
  | ecdsa
  | ed448
  | x25519
  | dsa
deriving DecidableEq, Repr

/-- A decoded private-key object: its algorithm family and an abstract
identifier of the key material (a keypair shares the identifier). -/
structure PrivKey where
  family : KeyFamily
  id : Nat
deriving DecidableEq, Repr

/-- A decoded public-key object: its algorithm family and an abstract
identifier of the key material (a keypair shares the identifier). -/
structure PubKey where
  family : KeyFamily
  id : Nat
deriving DecidableEq, Repr

/-- Whether the public-key class of the family has a `verify` method, per the
`cryptography.hazmat` API: Ed25519, RSA, elliptic-curve, Ed448 and DSA public
keys have one; X25519 public keys (key-exchange only) have none. -/
def PubKey.hasVerify (k : PubKey) : Bool :=
  match k.family with
  | .ed25519 => true
  | .rsa => true
  | .ecdsa => true
  | .ed448 => true
  | .dsa => true
  | .x25519 => false

/-- Whether the public-key class of the family has a `key_size` attribute,
per the `cryptography.hazmat` API: `RSAPublicKey.key_size`,
`EllipticCurvePublicKey.key_size` and `DSAPublicKey.key_size` all exist;
Ed25519, Ed448 and X25519 public keys have no `key_size`.  The comment
`# RSA keys have key_size` in `verifier.py` line 36 is wrong about
exclusivity: elliptic-curve public keys also have `key_size`. -/
def PubKey.hasKeySize (k : PubKey) : Bool :=
  match k.family with
  | .ed25519 => false
  | .rsa => true
  | .ecdsa => true
  | .ed448 => false
  | .x25519 => false
  | .dsa => true

/-- What a PEM byte buffer on disk decodes to: a private key, a public key,
or bytes that are not a valid key PEM at all. -/
inductive PemContent where
  | privKey : PrivKey → PemContent
  | pubKey : PubKey → PemContent
  | garbage : PemContent
deriving DecidableEq, Repr

/-- Numeric code of a key family, used only to give PEM files concrete bytes. -/
def KeyFamily.code : KeyFamily → Nat
  | .ed25519 => 0
  | .rsa => 1
  | .ecdsa => 2
  | .ed448 => 3
  | .x25519 => 4
  | .dsa => 5

/-- Contents of a file in the model: raw bytes (artifacts, signatures), or a
PEM-encoded key.  Keeping the PEM structure explicit stands in for the
external PEM parser of the `cryptography` library. -/
inductive FileData where
  | raw : Bytes → FileData
  | pem : PemContent → FileData
deriving DecidableEq, Repr

/-- The bytes of a file; PEM files get a concrete placeholder byte encoding
(their exact textual bytes never matter to the scripts, which only hash the
artifact file and parse key files). -/
def FileData.toBytes : FileData → Bytes
  | .raw b => b
  | .pem (.privKey k) => [0, k.family.code, k.id]
  | .pem (.pubKey k) => [1, k.family.code, k.id]
  | .pem .garbage => [2]

/-- The file system: a map from paths to file contents; `none` is a missing
or unreadable file. -/
def FS := String → Option FileData

/-- Write (create or truncate-and-overwrite) a file, as `open(path, 'wb')`
followed by `write` does. -/
def fsWrite (fs : FS) (path : String) (d : FileData) : FS :=
  fun p => if p = path then some d else fs p

/-- Model of `open(path,'rb').read()`: the file bytes, or `IOError` when the
file is missing or unreadable. -/
def readFile (fs : FS) (path : String) : Except PyError Bytes :=
  match fs path with
  | none => .error (.ioError path)
  | some d => .ok d.toBytes

/-- Model of opening a file whose contents will be PEM-parsed. -/
def loadFile (fs : FS) (path : String) : Except PyError FileData :=
  match fs path with
  | none => .error (.ioError path)
  | some d => .ok d

/-- Model of `serialization.load_pem_private_key(data, password=None)`: a
decoded private key when the buffer encodes one; `ValueError` when the buffer
is a public-key PEM or not a key PEM at all. -/
def load_pem_private_key : FileData → Except PyError PrivKey
  | .pem (.privKey k) => .ok k
  | _ => .error (.valueError "Could not deserialize key data")

/-- Model of `serialization.load_pem_public_key(data)`: a decoded public key
when the buffer encodes one; `ValueError` when the buffer is a private-key
PEM or not a key PEM at all. -/
def load_pem_public_key : FileData → Except PyError PubKey
  | .pem (.pubKey k) => .ok k
  | _ => .error (.valueError "Could not deserialize key data")

/-- `load_private_key` (`signer.py` lines 20-24): read the PEM file and parse
it as a private key. -/
def load_private_key (fs : FS) (pem_path : String) : Except PyError PrivKey :=
  match loadFile fs pem_path with
  | .error e => .error e
  | .ok d => load_pem_private_key d

/-- `load_public_key` (`verifier.py` lines 18-22): read the PEM file and
parse it as a public key. -/
def load_public_key (fs : FS) (pem_path : String) : Except PyError PubKey :=
  match loadFile fs pem_path with
  | .error e => .error e
  | .ok d => load_pem_public_key d

/-- `sha256_of_file` (`signer.py` lines 13-18 and `verifier.py` lines 11-16,
identical code): stream the file in 8192-byte chunks into a fresh hash object
and return the 32-byte digest; a missing file raises `IOError`. -/
def sha256_of_file (fs : FS) (path : String) : Except PyError Bytes :=
  match fs path with
  | none => .error (.ioError path)
  | some d => .ok (sha256_of_bytes d.toBytes)

/-! ## The scheme primitives of `cryptography.hazmat`, abstractly -/

/-- The external scheme-specific sign/verify primitives the scripts call:
EdDSA, RSASSA-PSS (MGF1-SHA256, maximum salt length, prehashed SHA-256) and
ECDSA (prehashed SHA-256).  Sign maps key identifier and message to signature
bytes; verify tells whether the library call succeeds (returns) rather than
raising `InvalidSignature`. -/
structure CryptoLib where
  edSign : Nat → Bytes → Bytes
  edVerify : Nat → Bytes → Bytes → Bool
  pssSign : Nat → Bytes → Bytes
  pssVerify : Nat → Bytes → Bytes → Bool
  ecdsaSign : Nat → Bytes → Bytes
  ecdsaVerify : Nat → Bytes → Bytes → Bool

/-- Round-trip contract of the library primitives: verifying a signature just
produced by the matching private key over the same message succeeds, for each
of the three schemes the scripts use. -/
def CryptoLib.Correct (lib : CryptoLib) : Prop :=
  (∀ id msg, lib.edVerify id (lib.edSign id msg) msg = true) ∧
  (∀ id msg, lib.pssVerify id (lib.pssSign id msg) msg = true) ∧
  (∀ id msg, lib.ecdsaVerify id (lib.ecdsaSign id msg) msg = true)

/-! ## The signer façade -/

/-- The dispatch on the loaded private key in `sign_with_private_key`
(`signer.py` lines 29-40): `isinstance` checks for Ed25519, RSA and
elliptic-curve private keys (which are mutually exclusive classes), with
`raise SystemExit('Unsupported key type')` for anything else. -/
def signDispatch (lib : CryptoLib) (key : PrivKey) (digest : Bytes) :
    Except PyError Bytes :=
  match key.family with
  | .ed25519 => .ok (lib.edSign key.id digest)
  | .rsa => .ok (lib.pssSign key.id digest)
  | .ecdsa => .ok (lib.ecdsaSign key.id digest)
  | _ => .error (.systemExitMsg "Unsupported key type")

/-- `sign_with_private_key` (`signer.py` lines 26-43): digest the artifact,
load the private key, dispatch the scheme-specific sign, and only then open
the output path for writing and write the signature.  The pair returned is
the outcome and the resulting file system. -/
def sign_with_private_key (lib : CryptoLib) (fs : FS)
    (artifact_path key_path out_sig_path : String) :
    Except PyError Unit × FS :=
  match sha256_of_file fs artifact_path with
  | .error e => (.error e, fs)
  | .ok digest =>
    match load_private_key fs key_path with
    | .error e => (.error e, fs)
    | .ok key =>
      match signDispatch lib key digest with
      | .error e => (.error e, fs)
      | .ok sig => (.ok (), fsWrite fs out_sig_path (.raw sig))

/-! ## The verifier façade -/

/-- The branch of `verify_signature` a public key is routed to by the
duck-typed probing in `verifier.py` lines 29-41: `hasattr(key, 'verify')`,
then `isinstance(key, ed25519.Ed25519PublicKey)`, then
`hasattr(key, 'key_size')` selecting the RSA-PSS call, else the ECDSA call. -/
inductive VerifyBranch where
  | edBranch
  | rsaPssBranch
  | ecdsaBranch
  | noVerifyAttr
deriving DecidableEq, Repr

/-- Which branch the probing selects for a given public key. -/
def dispatchBranch (key : PubKey) : VerifyBranch :=
  if key.hasVerify then
    if key.family = .ed25519 then .edBranch
    else if key.hasKeySize then .rsaPssBranch
    else .ecdsaBranch
  else .noVerifyAttr

/-- Body of the `try` block of `verify_signature` (`verifier.py` lines
29-45).  In the RSA branch the call
`key.verify(sig, digest, padding.PSS(...), Prehashed(...))` passes four
positional arguments, which only `RSAPublicKey.verify` accepts: on an
elliptic-curve or DSA public key the call raises `TypeError`.  In the final
branch `key.verify(sig, digest, ec.ECDSA(...))` passes three positional
arguments, which raises `TypeError` on an Ed448 public key.  A key with no
`verify` attribute reaches `raise SystemExit('Verification failed')`. -/
def tryBody (lib : CryptoLib) (key : PubKey) (sig digest : Bytes) :
    Except PyError Nat :=
  match dispatchBranch key with
  | .edBranch =>
    if lib.edVerify key.id sig digest then .ok 0 else .error .invalidSignature
  | .rsaPssBranch =>
    match key.family with
    | .rsa =>
      if lib.pssVerify key.id sig digest then .ok 0 else .error .invalidSignature
    | _ => .error (.typeError "verify takes 3 positional arguments but 4 were given")
  | .ecdsaBranch =>
    match key.family with
    | .ecdsa =>
      if lib.ecdsaVerify key.id sig digest then .ok 0 else .error .invalidSignature
    | _ => .error (.typeError "verify takes 2 positional arguments but 3 were given")
  | .noVerifyAttr => .error (.systemExitMsg "Verification failed")

/-- `verify_signature` (`verifier.py` lines 24-48): digest the artifact, load
the public key and read the signature (all before the `try`, so their
exceptions propagate), then run the dispatch; an `Exception` raised inside
the `try` is caught and turned into `return 2`, while `SystemExit` is not
caught by `except Exception` and propagates. -/
def verify_signature (lib : CryptoLib) (fs : FS)
    (artifact_path sig_path pubkey_path : String) : Except PyError Nat :=
  match sha256_of_file fs artifact_path with
  | .error e => .error e
  | .ok digest =>
    match load_public_key fs pubkey_path with
    | .error e => .error e
    | .ok key =>
      match readFile fs sig_path with
      | .error e => .error e
      | .ok sig =>
        match tryBody lib key sig digest with
        | .ok n => .ok n
        | .error e => if e.isException then .ok 2 else .error e

/-- `main` of `verifier.py` (lines 50-60): run `verify_signature`; on return
code 0 finish normally, otherwise `raise SystemExit(2)`; an exception raised
by `verify_signature` itself propagates out of `main`. -/
def verifier_main (lib : CryptoLib) (fs : FS)
    (artifact sig pub : String) : Except PyError Unit :=
  match verify_signature lib fs artifact sig pub with
  | .error e => .error e
  | .ok rc => if rc = 0 then .ok () else .error (.systemExitCode 2)

/-- The process exit status of a Python script outcome: 0 on normal
completion, `n` for `SystemExit(n)` with integer argument, 1 for
`SystemExit` with a message, and 1 for any uncaught exception (Python prints
a traceback and exits with status 1). -/
def processStatus : Except PyError Unit → Nat
  | .ok () => 0
  | .error (.systemExitCode n) => n
  | .error (.systemExitMsg _) => 1
  | .error _ => 1

/-- Exit status of one invocation of the verifier script. -/
def verifyMainStatus (lib : CryptoLib) (fs : FS)
    (artifact sig pub : String) : Nat :=
  processStatus (verifier_main lib fs artifact sig pub)

/-! ## A concrete instantiation of the library primitives

A deterministic toy scheme (tag byte, key identifier, then the message) that
satisfies the round-trip contract; it instantiates `CryptoLib` in the
closed-form evaluations, standing in for the real primitives whose
mathematics the scripts never look into. -/

/-- Toy signature bytes: scheme tag, key identifier, then the message. -/
def toySig (tag id : Nat) (msg : Bytes) : Bytes := tag :: id :: msg

/-- The toy instantiation of the three schemes. -/
def toyLib : CryptoLib where
  edSign := toySig 0
  edVerify := fun id s m => s == toySig 0 id m
  pssSign := toySig 1
  pssVerify := fun id s m => s == toySig 1 id m
  ecdsaSign := toySig 2
  ecdsaVerify := fun id s m => s == toySig 2 id m

/-- The toy instantiation satisfies the round-trip contract. -/
theorem toyLib_correct : toyLib.Correct := by
  refine ⟨fun id m => ?_, fun id m => ?_, fun id m => ?_⟩ <;> simp [toyLib]

/-- Build a finite file system from a path/contents association list. -/
def fsOf (entries : List (String × FileData)) : FS :=
  fun p => (entries.find? (fun e => e.1 == p)).map Prod.snd

/-! ## Digest lemmas -/

/-- Folding the hash-object updates over the chunks of `l` feeds exactly
`l`, whatever the chunk size `n ≠ 0` and any sufficient fuel. -/
theorem chunksOfGo_foldl_update (n : Nat) (hn : n ≠ 0) :
    ∀ (fuel : Nat) (l : Bytes) (s : HashState), l.length ≤ fuel →
      (chunksOfGo n fuel l).foldl HashState.update s = ⟨s.data ++ l⟩ := by
  intro fuel
  induction fuel with
  | zero =>
    intro l s h
    have hl : l = [] := List.eq_nil_of_length_eq_zero (Nat.le_zero.mp h)
    subst hl
    simp [chunksOfGo]
  | succ fuel ih =>
    intro l s h
    match l with
    | [] => simp [chunksOfGo]
    | x :: xs =>
      rw [chunksOfGo, List.foldl_cons]
      rw [ih ((x :: xs).drop n) _ (by simp only [List.length_drop, List.length_cons] at h ⊢; omega)]
      simp [HashState.update, List.append_assoc]

/-- The incremental digest loop of `sha256_of_file` computes the SHA-256 of
the whole file contents taken as one message. -/
theorem sha256_of_bytes_eq_sha256 (c : Bytes) : sha256_of_bytes c = sha256 c := by
  unfold sha256_of_bytes chunksOf
  rw [chunksOfGo_foldl_update 8192 (by decide) c.length c ⟨[]⟩ le_rfl]
  rfl

/-- A SHA-256 digest is exactly 32 bytes. -/
theorem sha256_length (m : Bytes) : (sha256 m).length = 32 := by
  simp [sha256, wordBytes]

/-! ## Dispatch and façade lemmas -/

/-- The scheme-specific verify call the probing dispatches to ran and
succeeded: the specification-side reading of a `return 0` in
`verify_signature`. -/
def schemeVerifyPassed (lib : CryptoLib) (key : PubKey) (sig digest : Bytes) : Bool :=
  match dispatchBranch key with
  | .edBranch => lib.edVerify key.id sig digest
  | .rsaPssBranch => key.family == .rsa && lib.pssVerify key.id sig digest
  | .ecdsaBranch => key.family == .ecdsa && lib.ecdsaVerify key.id sig digest
  | .noVerifyAttr => false

/-- A `return n` from the `try` body has `n = 0` and came from a successful
dispatched scheme-specific verify call. -/
theorem tryBody_ok (lib : CryptoLib) (key : PubKey) (sig digest : Bytes) (n : Nat)
    (h : tryBody lib key sig digest = .ok n) :
    n = 0 ∧ schemeVerifyPassed lib key sig digest = true := by
  unfold tryBody at h
  unfold schemeVerifyPassed
  cases hb : dispatchBranch key <;> rw [hb] at h
  case edBranch =>
    cases hv : lib.edVerify key.id sig digest <;> rw [hv] at h <;> simp at h
    exact ⟨by omega, rfl⟩
  case rsaPssBranch =>
    cases hf : key.family <;> rw [hf] at h
    case rsa =>
      cases hv : lib.pssVerify key.id sig digest <;> rw [hv] at h <;> simp at h
      exact ⟨by omega, by simp⟩
    all_goals simp at h
  case ecdsaBranch =>
    cases hf : key.family <;> rw [hf] at h
    case ecdsa =>
      cases hv : lib.ecdsaVerify key.id sig digest <;> rw [hv] at h <;> simp at h
      exact ⟨by omega, by simp⟩
    all_goals simp at h
  case noVerifyAttr => simp at h

/-- Every error of the `try` body is an `InvalidSignature`, a `TypeError`,
or the `SystemExit` raised for a key without a `verify` method. -/
theorem tryBody_error (lib : CryptoLib) (key : PubKey) (sig digest : Bytes) (e : PyError)
    (h : tryBody lib key sig digest = .error e) :
    e = .invalidSignature ∨ (∃ m, e = .typeError m) ∨
      e = .systemExitMsg "Verification failed" := by
  unfold tryBody at h
  cases hb : dispatchBranch key <;> rw [hb] at h
  case edBranch =>
    cases hv : lib.edVerify key.id sig digest <;> rw [hv] at h <;> simp at h
    exact Or.inl h.symm
  case rsaPssBranch =>
    cases hf : key.family <;> rw [hf] at h
    case rsa =>
      cases hv : lib.pssVerify key.id sig digest <;> rw [hv] at h <;> simp at h
      exact Or.inl h.symm
    all_goals simp at h
    all_goals exact Or.inr (Or.inl ⟨_, h.symm⟩)
  case ecdsaBranch =>
    cases hf : key.family <;> rw [hf] at h
    case ecdsa =>
      cases hv : lib.ecdsaVerify key.id sig digest <;> rw [hv] at h <;> simp at h
      exact Or.inl h.symm
    all_goals simp at h
    all_goals exact Or.inr (Or.inl ⟨_, h.symm⟩)
  case noVerifyAttr =>
    simp at h
    exact Or.inr (Or.inr h.symm)

/-- A failing `sha256_of_file` failed reading the artifact. -/
theorem sha256_of_file_error (fs : FS) (a : String) (e : PyError)
    (h : sha256_of_file fs a = .error e) : e = .ioError a := by
  unfold sha256_of_file at h
  cases hfa : fs a <;> rw [hfa] at h <;> simp_all

/-- A failing `load_public_key` failed reading the file or parsing the PEM. -/
theorem load_public_key_error (fs : FS) (p : String) (e : PyError)
    (h : load_public_key fs p = .error e) :
    e = .ioError p ∨ e = .valueError "Could not deserialize key data" := by
  unfold load_public_key loadFile at h
  cases hfp : fs p <;> rw [hfp] at h
  · simp_all
  · rename_i d
    cases d with
    | raw b => simp_all [load_pem_public_key]
    | pem c => cases c <;> simp_all [load_pem_public_key]

/-- A failing `readFile` is an `IOError` on that path. -/
theorem readFile_error (fs : FS) (s : String) (e : PyError)
    (h : readFile fs s = .error e) : e = .ioError s := by
  unfold readFile at h
  cases hfs : fs s <;> rw [hfs] at h <;> simp_all

/-- Unfolding of `verify_signature` once the three reads succeed. -/
theorem verify_signature_eq (lib : CryptoLib) (fs : FS) (a s p : String)
    (digest sig : Bytes) (key : PubKey)
    (ha : sha256_of_file fs a = .ok digest)
    (hp : load_public_key fs p = .ok key)
    (hs : readFile fs s = .ok sig) :
    verify_signature lib fs a s p =
      match tryBody lib key sig digest with
      | .ok n => .ok n
      | .error e => if e.isException then .ok 2 else .error e := by
  unfold verify_signature
  rw [ha, hp, hs]

/-- Shape of every `verify_signature` outcome: success, the caught-exception
return 2, a propagated read/parse error, or the uncaught `SystemExit` for a
key with no `verify` method. -/
theorem verify_signature_shape (lib : CryptoLib) (fs : FS) (a s p : String) :
    verify_signature lib fs a s p = .ok 0 ∨ verify_signature lib fs a s p = .ok 2 ∨
    verify_signature lib fs a s p = .error (.ioError a) ∨
    verify_signature lib fs a s p = .error (.ioError p) ∨
    verify_signature lib fs a s p = .error (.ioError s) ∨
    verify_signature lib fs a s p = .error (.valueError "Could not deserialize key data") ∨
    verify_signature lib fs a s p = .error (.systemExitMsg "Verification failed") := by
  cases ha : sha256_of_file fs a with
  | error e =>
    have he := sha256_of_file_error fs a e ha
    subst he
    unfold verify_signature
    rw [ha]
    simp
  | ok digest =>
    cases hp : load_public_key fs p with
    | error e =>
      have he := load_public_key_error fs p e hp
      unfold verify_signature
      rw [ha, hp]
      rcases he with he | he <;> subst he <;> simp
    | ok key =>
      cases hs : readFile fs s with
      | error e =>
        have he := readFile_error fs s e hs
        subst he
        unfold verify_signature
        rw [ha, hp, hs]
        simp
      | ok sig =>
        rw [verify_signature_eq lib fs a s p digest sig key ha hp hs]
        cases ht : tryBody lib key sig digest with
        | ok n =>
          have hn := tryBody_ok lib key sig digest n ht
          simp [hn.1]
        | error e =>
          have he := tryBody_error lib key sig digest e ht
          rcases he with he | ⟨m, he⟩ | he <;> subst he <;>
            simp [PyError.isException]

/-- A failing run of the signer returns the starting file system in the
second component. -/
theorem sign_pair_error (lib : CryptoLib) (fs : FS) (a k o : String)
    (e : PyError) (fs2 : FS)
    (h : sign_with_private_key lib fs a k o = (.error e, fs2)) : fs2 = fs := by
  unfold sign_with_private_key at h
  split at h
  · injection h with h1 h2
    exact h2.symm
  · split at h
    · injection h with h1 h2
      exact h2.symm
    · split at h
      · injection h with h1 h2
        exact h2.symm
      · injection h with h1 h2
        exact Except.noConfusion h1

/-! ## Claim theorems -/

/-- C8: for every file present in the file system, `sha256_of_file` — which
consumes the file in successive 8192-byte chunks — returns exactly the
SHA-256 of the whole contents taken as one message, and the digest of a
0-byte file is the SHA-256 hash-of-empty-input constant
`e3b0c44298fc1c149afbf4c8996fb92427ae41e4649b934ca495991b7852b855`. -/
theorem sha256_of_file_eq_whole_hash (fs : FS) (path : String) (d : FileData)
    (h : fs path = some d) :
    sha256_of_file fs path = .ok (sha256 d.toBytes) ∧
    sha256_of_bytes [] = [0xe3, 0xb0, 0xc4, 0x42, 0x98, 0xfc, 0x1c, 0x14,
      0x9a, 0xfb, 0xf4, 0xc8, 0x99, 0x6f, 0xb9, 0x24, 0x27, 0xae, 0x41, 0xe4,
      0x64, 0x9b, 0x93, 0x4c, 0xa4, 0x95, 0x99, 0x1b, 0x78, 0x52, 0xb8, 0x55] := by
  refine ⟨?_, by decide⟩
  unfold sha256_of_file
  rw [h]
  exact congrArg Except.ok (sha256_of_bytes_eq_sha256 d.toBytes)

/-- Witness for C8 at a concrete two-byte file. -/
theorem sha256_of_file_eq_whole_hash_witness :
    sha256_of_file (fsOf [("artifact.bin", .raw [104, 105])]) "artifact.bin" =
        .ok (sha256 (FileData.raw [104, 105]).toBytes) ∧
    sha256_of_bytes [] = [0xe3, 0xb0, 0xc4, 0x42, 0x98, 0xfc, 0x1c, 0x14,
      0x9a, 0xfb, 0xf4, 0xc8, 0x99, 0x6f, 0xb9, 0x24, 0x27, 0xae, 0x41, 0xe4,
      0x64, 0x9b, 0x93, 0x4c, 0xa4, 0x95, 0x99, 0x1b, 0x78, 0x52, 0xb8, 0x55] :=
  sha256_of_file_eq_whole_hash (fsOf [("artifact.bin", .raw [104, 105])])
    "artifact.bin" (.raw [104, 105]) (by decide)

/-- C9: the digest is deterministic — identical byte contents, in any file
system and under any path, give identical `sha256_of_file` outputs — and the
digest is exactly 32 bytes long. -/
theorem sha256_of_file_deterministic_32 (fs fs2 : FS) (p p2 : String)
    (d d2 : FileData) (h : fs p = some d) (h2 : fs2 p2 = some d2)
    (heq : d.toBytes = d2.toBytes) :
    sha256_of_file fs p = sha256_of_file fs2 p2 ∧
    ∃ b, sha256_of_file fs p = .ok b ∧ b.length = 32 := by
  have e1 : sha256_of_file fs p = .ok (sha256_of_bytes d.toBytes) := by
    unfold sha256_of_file; rw [h]
  have e2 : sha256_of_file fs2 p2 = .ok (sha256_of_bytes d2.toBytes) := by
    unfold sha256_of_file; rw [h2]
  refine ⟨by rw [e1, e2, heq], ⟨_, e1, ?_⟩⟩
  rw [sha256_of_bytes_eq_sha256]
  exact sha256_length _

/-- Witness for C9: the same three bytes under two different paths in two
different file systems. -/
theorem sha256_of_file_deterministic_32_witness :
    sha256_of_file (fsOf [("a.bin", .raw [1, 2, 3])]) "a.bin" =
      sha256_of_file (fsOf [("b.bin", .raw [1, 2, 3]), ("c.bin", .raw [9])]) "b.bin" ∧
    ∃ b, sha256_of_file (fsOf [("a.bin", .raw [1, 2, 3])]) "a.bin" = .ok b ∧
      b.length = 32 :=
  sha256_of_file_deterministic_32
    (fsOf [("a.bin", .raw [1, 2, 3])])
    (fsOf [("b.bin", .raw [1, 2, 3]), ("c.bin", .raw [9])])
    "a.bin" "b.bin" (.raw [1, 2, 3]) (.raw [1, 2, 3])
    (by decide) (by decide) rfl

/-- C4: when `sign_with_private_key` fails at any of its first three steps
(artifact digest, private-key load, or scheme dispatch including the
unsupported-key-type rejection), the file system is returned unchanged: the
output signature path is neither created, truncated, nor overwritten. -/
theorem sign_failure_preserves_fs (lib : CryptoLib) (fs : FS)
    (artifact_path key_path out_sig_path : String) (e : PyError)
    (h : (sign_with_private_key lib fs artifact_path key_path out_sig_path).1 =
      .error e) :
    (sign_with_private_key lib fs artifact_path key_path out_sig_path).2 = fs := by
  have hs : sign_with_private_key lib fs artifact_path key_path out_sig_path =
      ((sign_with_private_key lib fs artifact_path key_path out_sig_path).1,
       (sign_with_private_key lib fs artifact_path key_path out_sig_path).2) := rfl
  rw [h] at hs
  exact sign_pair_error lib fs artifact_path key_path out_sig_path e _ hs

/-- Witness for C4: signing with a missing artifact file leaves the file
system untouched. -/
theorem sign_failure_preserves_fs_witness :
    (sign_with_private_key toyLib (fsOf []) "artifact.bin" "key.pem" "out.sig").2 =
      fsOf [] :=
  sign_failure_preserves_fs toyLib (fsOf []) "artifact.bin" "key.pem" "out.sig"
    (.ioError "artifact.bin") (by decide)

/-- C6 counterexample: loading a public-key-only PEM in the signing role
fails with the PEM loader's `ValueError`, not with a distinguished
`RoleMismatchError` (no such error class exists in the code), and
symmetrically for a private-key PEM loaded in the verification role. -/
theorem wrong_role_load_not_roleMismatch :
    load_private_key (fsOf [("key.pem", .pem (.pubKey ⟨.ed25519, 3⟩))]) "key.pem" =
        .error (.valueError "Could not deserialize key data") ∧
    load_public_key (fsOf [("key.pem", .pem (.privKey ⟨.ed25519, 3⟩))]) "key.pem" =
        .error (.valueError "Could not deserialize key data") ∧
    load_private_key (fsOf [("key.pem", .pem (.pubKey ⟨.ed25519, 3⟩))]) "key.pem" ≠
        .error .roleMismatch ∧
    load_public_key (fsOf [("key.pem", .pem (.privKey ⟨.ed25519, 3⟩))]) "key.pem" ≠
        .error .roleMismatch := by
  decide

/-- C6 amended: loading a key in the wrong role always fails, but with the
PEM loader's `ValueError`, not with a distinguished role-mismatch error. -/
theorem wrong_role_load_valueError (fs fs2 : FS) (path path2 : String)
    (k : PubKey) (k2 : PrivKey)
    (h : fs path = some (.pem (.pubKey k)))
    (h2 : fs2 path2 = some (.pem (.privKey k2))) :
    load_private_key fs path = .error (.valueError "Could not deserialize key data") ∧
    load_public_key fs2 path2 = .error (.valueError "Could not deserialize key data") := by
  constructor
  · unfold load_private_key loadFile
    rw [h]
    rfl
  · unfold load_public_key loadFile
    rw [h2]
    rfl

/-- Witness for the amended C6 at concrete wrong-role PEM files. -/
theorem wrong_role_load_valueError_witness :
    load_private_key (fsOf [("p.pem", .pem (.pubKey ⟨.rsa, 8⟩))]) "p.pem" =
        .error (.valueError "Could not deserialize key data") ∧
    load_public_key (fsOf [("q.pem", .pem (.privKey ⟨.rsa, 8⟩))]) "q.pem" =
        .error (.valueError "Could not deserialize key data") :=
  wrong_role_load_valueError
    (fsOf [("p.pem", .pem (.pubKey ⟨.rsa, 8⟩))])
    (fsOf [("q.pem", .pem (.privKey ⟨.rsa, 8⟩))])
    "p.pem" "q.pem" ⟨.rsa, 8⟩ ⟨.rsa, 8⟩ (by decide) (by decide)

/-! ## Round-trip computation helpers -/

/-- Unfolding of the signer once the artifact and key reads succeed. -/
theorem sign_with_private_key_eq (lib : CryptoLib) (fs : FS)
    (art kp out : String) (d : FileData) (k : PrivKey)
    (hart : fs art = some d) (hkp : fs kp = some (.pem (.privKey k))) :
    sign_with_private_key lib fs art kp out =
      match signDispatch lib k (sha256_of_bytes d.toBytes) with
      | .error e => (.error e, fs)
      | .ok sig => (.ok (), fsWrite fs out (.raw sig)) := by
  unfold sign_with_private_key
  have hdig : sha256_of_file fs art = .ok (sha256_of_bytes d.toBytes) := by
    unfold sha256_of_file; rw [hart]
  have hload : load_private_key fs kp = .ok k := by
    unfold load_private_key loadFile; rw [hkp]; rfl
  rw [hdig, hload]

/-- Verification in a file system where the signature was just written,
with the artifact and public key untouched. -/
theorem verify_signature_after_write (lib : CryptoLib) (fs : FS)
    (art pp out : String) (d : FileData) (k : PubKey) (sig : Bytes)
    (hart : fs art = some d) (hpp : fs pp = some (.pem (.pubKey k)))
    (hoa : out ≠ art) (hop : out ≠ pp) :
    verify_signature lib (fsWrite fs out (.raw sig)) art out pp =
      match tryBody lib k sig (sha256_of_bytes d.toBytes) with
      | .ok n => .ok n
      | .error e => if e.isException then .ok 2 else .error e := by
  have h1 : sha256_of_file (fsWrite fs out (.raw sig)) art =
      .ok (sha256_of_bytes d.toBytes) := by
    unfold sha256_of_file fsWrite
    rw [if_neg (Ne.symm hoa), hart]
  have h2 : load_public_key (fsWrite fs out (.raw sig)) pp = .ok k := by
    unfold load_public_key loadFile fsWrite
    rw [if_neg (Ne.symm hop), hpp]
    rfl
  have h3 : readFile (fsWrite fs out (.raw sig)) out = .ok sig := by
    unfold readFile fsWrite
    rw [if_pos rfl]
    rfl
  exact verify_signature_eq lib _ art out pp _ sig _ h1 h2 h3

/-- The `try` body on an Ed25519 public key runs the EdDSA verify call. -/
theorem tryBody_ed25519 (lib : CryptoLib) (id : Nat) (sig dg : Bytes) :
    tryBody lib ⟨.ed25519, id⟩ sig dg =
      if lib.edVerify id sig dg = true then .ok 0
      else .error .invalidSignature := rfl

/-- The `try` body on an RSA public key runs the RSA-PSS verify call. -/
theorem tryBody_rsa (lib : CryptoLib) (id : Nat) (sig dg : Bytes) :
    tryBody lib ⟨.rsa, id⟩ sig dg =
      if lib.pssVerify id sig dg = true then .ok 0
      else .error .invalidSignature := rfl

/-- The `try` body on an elliptic-curve public key: the key's `key_size`
attribute routes it to the RSA-PSS call, which raises `TypeError`; the
ECDSA verify call is never reached. -/
theorem tryBody_ec (lib : CryptoLib) (id : Nat) (sig dg : Bytes) :
    tryBody lib ⟨.ecdsa, id⟩ sig dg =
      .error (.typeError "verify takes 3 positional arguments but 4 were given") := rfl

/-- C1: with scheme primitives satisfying the round-trip contract, signing
an artifact and then verifying the written signature with the matching
public key returns 0 for an Ed25519 or RSA keypair — but returns 2 for an
ECDSA keypair, because the EC public key's `key_size` attribute routes it to
the RSA-PSS verify call, which raises `TypeError`.  The claimed round-trip
Valid outcome for all three supported families fails for ECDSA. -/
theorem sign_verify_roundTrip_by_family (lib : CryptoLib) (hlib : lib.Correct)
    (fam : KeyFamily) (id : Nat) (fs : FS) (art kp pp out : String) (d : FileData)
    (hart : fs art = some d)
    (hkp : fs kp = some (.pem (.privKey ⟨fam, id⟩)))
    (hpp : fs pp = some (.pem (.pubKey ⟨fam, id⟩)))
    (hoa : out ≠ art) (hop : out ≠ pp) :
    (fam = .ed25519 ∨ fam = .rsa →
      verify_signature lib (sign_with_private_key lib fs art kp out).2 art out pp =
        .ok 0) ∧
    (fam = .ecdsa →
      verify_signature lib (sign_with_private_key lib fs art kp out).2 art out pp =
        .ok 2) := by
  constructor
  · rintro (rfl | rfl)
    · rw [sign_with_private_key_eq lib fs art kp out d _ hart hkp]
      rw [show signDispatch lib ⟨KeyFamily.ed25519, id⟩ (sha256_of_bytes d.toBytes) =
        .ok (lib.edSign id (sha256_of_bytes d.toBytes)) from rfl]
      rw [show (Except.ok (ε := PyError) (),
        fsWrite fs out (.raw (lib.edSign id (sha256_of_bytes d.toBytes)))).2 =
        fsWrite fs out (.raw (lib.edSign id (sha256_of_bytes d.toBytes))) from rfl]
      rw [verify_signature_after_write lib fs art pp out d _ _ hart hpp hoa hop]
      rw [tryBody_ed25519, if_pos (hlib.1 id (sha256_of_bytes d.toBytes))]
    · rw [sign_with_private_key_eq lib fs art kp out d _ hart hkp]
      rw [show signDispatch lib ⟨KeyFamily.rsa, id⟩ (sha256_of_bytes d.toBytes) =
        .ok (lib.pssSign id (sha256_of_bytes d.toBytes)) from rfl]
      rw [show (Except.ok (ε := PyError) (),
        fsWrite fs out (.raw (lib.pssSign id (sha256_of_bytes d.toBytes)))).2 =
        fsWrite fs out (.raw (lib.pssSign id (sha256_of_bytes d.toBytes))) from rfl]
      rw [verify_signature_after_write lib fs art pp out d _ _ hart hpp hoa hop]
      rw [tryBody_rsa, if_pos (hlib.2.1 id (sha256_of_bytes d.toBytes))]
  · rintro rfl
    rw [sign_with_private_key_eq lib fs art kp out d _ hart hkp]
    rw [show signDispatch lib ⟨KeyFamily.ecdsa, id⟩ (sha256_of_bytes d.toBytes) =
      .ok (lib.ecdsaSign id (sha256_of_bytes d.toBytes)) from rfl]
    rw [show (Except.ok (ε := PyError) (),
      fsWrite fs out (.raw (lib.ecdsaSign id (sha256_of_bytes d.toBytes)))).2 =
      fsWrite fs out (.raw (lib.ecdsaSign id (sha256_of_bytes d.toBytes))) from rfl]
    rw [verify_signature_after_write lib fs art pp out d _ _ hart hpp hoa hop]
    rw [tryBody_ec]
    rfl

/-- Witness for C1 at a concrete ECDSA keypair: the genuine round trip
returns 2, where the claim demands 0. -/
theorem sign_verify_roundTrip_by_family_witness :
    verify_signature toyLib
      (sign_with_private_key toyLib
        (fsOf [("a.bin", .raw [104, 105]),
               ("priv.pem", .pem (.privKey ⟨.ecdsa, 7⟩)),
               ("pub.pem", .pem (.pubKey ⟨.ecdsa, 7⟩))])
        "a.bin" "priv.pem" "a.sig").2
      "a.bin" "a.sig" "pub.pem" = .ok 2 :=
  (sign_verify_roundTrip_by_family toyLib toyLib_correct .ecdsa 7
    (fsOf [("a.bin", .raw [104, 105]),
           ("priv.pem", .pem (.privKey ⟨.ecdsa, 7⟩)),
           ("pub.pem", .pem (.pubKey ⟨.ecdsa, 7⟩))])
    "a.bin" "priv.pem" "pub.pem" "a.sig" (.raw [104, 105])
    (by decide) (by decide) (by decide) (by decide) (by decide)).2 rfl

/-- C2: an elliptic-curve public key is never checked with the ECDSA
algorithm: because `EllipticCurvePublicKey` has a `key_size` attribute, the
attribute probing routes every EC public key to the RSA-PSS verify call,
which raises `TypeError` — contradicting the claim that an ECDSA public key
is checked with ECDSA and never with RSA-PSS. -/
theorem ec_public_key_takes_rsaPss_branch (k : PubKey) (hk : k.family = .ecdsa) :
    dispatchBranch k = .rsaPssBranch ∧
    ∀ (lib : CryptoLib) (sig digest : Bytes),
      tryBody lib k sig digest =
        .error (.typeError "verify takes 3 positional arguments but 4 were given") := by
  obtain ⟨fam, id⟩ := k
  have hf : fam = .ecdsa := hk
  subst hf
  exact ⟨rfl, fun lib sig digest => rfl⟩

/-- Witness for C2 at a concrete EC public key. -/
theorem ec_public_key_takes_rsaPss_branch_witness :
    dispatchBranch ⟨.ecdsa, 0⟩ = .rsaPssBranch ∧
    tryBody toyLib ⟨.ecdsa, 0⟩ [1] [2] =
      .error (.typeError "verify takes 3 positional arguments but 4 were given") :=
  ⟨(ec_public_key_takes_rsaPss_branch ⟨.ecdsa, 0⟩ rfl).1,
   (ec_public_key_takes_rsaPss_branch ⟨.ecdsa, 0⟩ rfl).2 toyLib [1] [2]⟩

/-- A digest failure propagates out of `verify_signature` uncaught. -/
theorem verify_signature_err1 (lib : CryptoLib) (fs : FS) (a s p : String)
    (e : PyError) (h1 : sha256_of_file fs a = .error e) :
    verify_signature lib fs a s p = .error e := by
  unfold verify_signature
  rw [h1]

/-- A key-load failure propagates out of `verify_signature` uncaught. -/
theorem verify_signature_err2 (lib : CryptoLib) (fs : FS) (a s p : String)
    (dg : Bytes) (e : PyError)
    (h1 : sha256_of_file fs a = .ok dg) (h2 : load_public_key fs p = .error e) :
    verify_signature lib fs a s p = .error e := by
  unfold verify_signature
  rw [h1, h2]

/-- A signature-read failure propagates out of `verify_signature` uncaught. -/
theorem verify_signature_err3 (lib : CryptoLib) (fs : FS) (a s p : String)
    (dg : Bytes) (key : PubKey) (e : PyError)
    (h1 : sha256_of_file fs a = .ok dg) (h2 : load_public_key fs p = .ok key)
    (h3 : readFile fs s = .error e) :
    verify_signature lib fs a s p = .error e := by
  unfold verify_signature
  rw [h1, h2, h3]

/-- C5: with a readable artifact, a loadable supported-family public key and
a readable signature file, any signature bytes the family's scheme primitive
rejects — including the empty signature and any bit-flipped variant of a
valid one — make `verify_signature` return the Invalid outcome 2: never 0,
and never an uncaught exception. -/
theorem tampered_signature_rejected (lib : CryptoLib) (fs : FS) (a s p : String)
    (d : FileData) (k : PubKey) (sigBytes : Bytes)
    (ha : fs a = some d) (hp : fs p = some (.pem (.pubKey k)))
    (hs : fs s = some (.raw sigBytes))
    (hfam : k.family = .ed25519 ∨ k.family = .rsa ∨ k.family = .ecdsa)
    (hrej1 : k.family = .ed25519 →
      lib.edVerify k.id sigBytes (sha256_of_bytes d.toBytes) = false)
    (hrej2 : k.family = .rsa →
      lib.pssVerify k.id sigBytes (sha256_of_bytes d.toBytes) = false) :
    verify_signature lib fs a s p = .ok 2 := by
  have h1 : sha256_of_file fs a = .ok (sha256_of_bytes d.toBytes) := by
    unfold sha256_of_file; rw [ha]
  have h2 : load_public_key fs p = .ok k := by
    unfold load_public_key loadFile; rw [hp]; rfl
  have h3 : readFile fs s = .ok sigBytes := by
    unfold readFile; rw [hs]; rfl
  rw [verify_signature_eq lib fs a s p _ sigBytes k h1 h2 h3]
  obtain ⟨fam, id⟩ := k
  rcases hfam with hf | hf | hf
  · have hf2 : fam = KeyFamily.ed25519 := hf
    subst hf2
    rw [tryBody_ed25519, if_neg (by simp [hrej1 rfl])]
    rfl
  · have hf2 : fam = KeyFamily.rsa := hf
    subst hf2
    rw [tryBody_rsa, if_neg (by simp [hrej2 rfl])]
    rfl
  · have hf2 : fam = KeyFamily.ecdsa := hf
    subst hf2
    rw [tryBody_ec]
    rfl

/-- Witness for C5: the empty signature against an Ed25519 public key is
rejected with return code 2. -/
theorem tampered_signature_rejected_witness :
    verify_signature toyLib
      (fsOf [("a.bin", .raw [104, 105]), ("a.sig", .raw []),
             ("pub.pem", .pem (.pubKey ⟨.ed25519, 5⟩))])
      "a.bin" "a.sig" "pub.pem" = .ok 2 :=
  tampered_signature_rejected toyLib
    (fsOf [("a.bin", .raw [104, 105]), ("a.sig", .raw []),
           ("pub.pem", .pem (.pubKey ⟨.ed25519, 5⟩))])
    "a.bin" "a.sig" "pub.pem" (.raw [104, 105]) ⟨.ed25519, 5⟩ []
    (by decide) (by decide) (by decide) (Or.inl rfl)
    (fun _ => by decide) (fun hr => absurd hr (by decide))

/-- C7 counterexample: a successfully loaded X25519 public key (a recognized
but unsupported family) does not make `verify_signature` fail with a
distinguished unsupported-key-type error: the key has no `verify` method, so
the code raises `SystemExit('Verification failed')`, which `except
Exception` does not catch. -/
theorem unsupported_pub_not_distinguished :
    verify_signature toyLib
      (fsOf [("a.bin", .raw []), ("a.sig", .raw []),
             ("pub.pem", .pem (.pubKey ⟨.x25519, 1⟩))])
      "a.bin" "a.sig" "pub.pem" = .error (.systemExitMsg "Verification failed") ∧
    verify_signature toyLib
      (fsOf [("a.bin", .raw []), ("a.sig", .raw []),
             ("pub.pem", .pem (.pubKey ⟨.x25519, 1⟩))])
      "a.bin" "a.sig" "pub.pem" ≠ .error .unsupportedKeyType := by
  decide

/-- C7 amended: an unsupported private-key family makes the signer abort
with the distinguished `SystemExit('Unsupported key type')`; an unsupported
public-key family makes the verifier fail, but never with a distinguished
unsupported-key-type error: a key lacking a `verify` method escalates to the
uncaught `SystemExit('Verification failed')`, and the other unsupported
families fall into the generic caught-exception return 2. -/
theorem unsupported_family_sign_verify (lib : CryptoLib) (kpriv : PrivKey)
    (dg : Bytes)
    (hpriv : kpriv.family = .ed448 ∨ kpriv.family = .x25519 ∨ kpriv.family = .dsa)
    (fs : FS) (a s p : String) (d : FileData) (kpub : PubKey) (sb : Bytes)
    (ha : fs a = some d) (hp : fs p = some (.pem (.pubKey kpub)))
    (hs : fs s = some (.raw sb))
    (hpub : kpub.family = .ed448 ∨ kpub.family = .x25519 ∨ kpub.family = .dsa) :
    signDispatch lib kpriv dg = .error (.systemExitMsg "Unsupported key type") ∧
    (verify_signature lib fs a s p = .ok 2 ∨
     verify_signature lib fs a s p = .error (.systemExitMsg "Verification failed")) ∧
    (∀ e, verify_signature lib fs a s p = .error e → e ≠ .unsupportedKeyType) := by
  have h1 : sha256_of_file fs a = .ok (sha256_of_bytes d.toBytes) := by
    unfold sha256_of_file; rw [ha]
  have h2 : load_public_key fs p = .ok kpub := by
    unfold load_public_key loadFile; rw [hp]; rfl
  have h3 : readFile fs s = .ok sb := by
    unfold readFile; rw [hs]; rfl
  have hever : verify_signature lib fs a s p = .ok 2 ∨
      verify_signature lib fs a s p = .error (.systemExitMsg "Verification failed") := by
    rw [verify_signature_eq lib fs a s p _ sb kpub h1 h2 h3]
    obtain ⟨famb, idb⟩ := kpub
    rcases hpub with hf | hf | hf
    · have hf2 : famb = KeyFamily.ed448 := hf
      subst hf2
      exact Or.inl rfl
    · have hf2 : famb = KeyFamily.x25519 := hf
      subst hf2
      exact Or.inr rfl
    · have hf2 : famb = KeyFamily.dsa := hf
      subst hf2
      exact Or.inl rfl
  refine ⟨?_, hever, ?_⟩
  · obtain ⟨famp, idp⟩ := kpriv
    rcases hpriv with hf | hf | hf <;>
      · first
        | (have hf2 : famp = KeyFamily.ed448 := hf; subst hf2; rfl)
        | (have hf2 : famp = KeyFamily.x25519 := hf; subst hf2; rfl)
        | (have hf2 : famp = KeyFamily.dsa := hf; subst hf2; rfl)
  · intro e he
    rcases hever with hv | hv
    · rw [hv] at he
      cases he
    · rw [hv] at he
      injection he with he2
      subst he2
      decide

/-- Witness for the amended C7: a DSA public key returns 2 and an Ed448
private key aborts signing with `SystemExit('Unsupported key type')`. -/
theorem unsupported_family_sign_verify_witness :
    signDispatch toyLib ⟨.ed448, 4⟩ [9] =
      .error (.systemExitMsg "Unsupported key type") ∧
    (verify_signature toyLib
      (fsOf [("a.bin", .raw []), ("a.sig", .raw [3]),
             ("pub.pem", .pem (.pubKey ⟨.dsa, 4⟩))])
      "a.bin" "a.sig" "pub.pem" = .ok 2 ∨
     verify_signature toyLib
      (fsOf [("a.bin", .raw []), ("a.sig", .raw [3]),
             ("pub.pem", .pem (.pubKey ⟨.dsa, 4⟩))])
      "a.bin" "a.sig" "pub.pem" = .error (.systemExitMsg "Verification failed")) ∧
    (∀ e, verify_signature toyLib
      (fsOf [("a.bin", .raw []), ("a.sig", .raw [3]),
             ("pub.pem", .pem (.pubKey ⟨.dsa, 4⟩))])
      "a.bin" "a.sig" "pub.pem" = .error e → e ≠ .unsupportedKeyType) :=
  unsupported_family_sign_verify toyLib ⟨.ed448, 4⟩ [9] (Or.inl rfl)
    (fsOf [("a.bin", .raw []), ("a.sig", .raw [3]),
           ("pub.pem", .pem (.pubKey ⟨.dsa, 4⟩))])
    "a.bin" "a.sig" "pub.pem" (.raw []) ⟨.dsa, 4⟩ [3]
    (by decide) (by decide) (by decide) (Or.inr (Or.inr rfl))

/-- C3 counterexample: with a missing artifact file the verifier script
terminates with exit status 1 — the traceback of the uncaught `IOError`
raised before the `try` block — not with status 0 or 2 as the claim
demands for every input. -/
theorem missing_artifact_status_not_0_or_2 :
    ¬(verifyMainStatus toyLib (fsOf []) "a.bin" "a.sig" "pub.pem" = 0 ∨
      verifyMainStatus toyLib (fsOf []) "a.bin" "a.sig" "pub.pem" = 2) := by
  decide

/-- C3 amended: the verifier's exit status is always 0, 1 or 2: 0 exactly
when verification succeeded, 2 exactly when an exception raised inside the
dispatch `try` block was caught (cryptographically invalid signature or
scheme-dispatch `TypeError`), and 1 otherwise — a structural error before
dispatch (missing or unreadable artifact, signature or key file, malformed
PEM) or a key without a `verify` method terminates the process through an
uncaught exception with status 1, not 2. -/
theorem verify_exit_status_trichotomy (lib : CryptoLib) (fs : FS) (a s p : String) :
    (verifyMainStatus lib fs a s p = 0 ∨ verifyMainStatus lib fs a s p = 1 ∨
     verifyMainStatus lib fs a s p = 2) ∧
    (verifyMainStatus lib fs a s p = 0 ↔ verify_signature lib fs a s p = .ok 0) ∧
    (verifyMainStatus lib fs a s p = 2 ↔ verify_signature lib fs a s p = .ok 2) := by
  rcases verify_signature_shape lib fs a s p with h | h | h | h | h | h | h <;>
    simp [verifyMainStatus, verifier_main, h, processStatus]

/-- C10: whenever `verify_signature` returns (rather than raising), the
return value is 0 or 2 and nothing else, and it is 0 only when the
dispatched scheme-specific verify call (Ed25519, RSA-PSS, or the generic
branch) ran and completed without raising. -/
theorem verify_signature_return_invariant (lib : CryptoLib) (fs : FS)
    (a s p : String) (n : Nat) (h : verify_signature lib fs a s p = .ok n) :
    (n = 0 ∨ n = 2) ∧
    (n = 0 → ∃ digest key sig, sha256_of_file fs a = .ok digest ∧
      load_public_key fs p = .ok key ∧ readFile fs s = .ok sig ∧
      schemeVerifyPassed lib key sig digest = true) := by
  cases h1 : sha256_of_file fs a with
  | error e => rw [verify_signature_err1 lib fs a s p e h1] at h; cases h
  | ok digest =>
    cases h2 : load_public_key fs p with
    | error e => rw [verify_signature_err2 lib fs a s p digest e h1 h2] at h; cases h
    | ok key =>
      cases h3 : readFile fs s with
      | error e =>
        rw [verify_signature_err3 lib fs a s p digest key e h1 h2 h3] at h
        cases h
      | ok sig =>
        rw [verify_signature_eq lib fs a s p digest sig key h1 h2 h3] at h
        cases ht : tryBody lib key sig digest with
        | ok m =>
          rw [ht] at h
          simp at h
          obtain ⟨hm0, hpass⟩ := tryBody_ok lib key sig digest m ht
          exact ⟨Or.inl (by omega),
                 fun _ => ⟨digest, key, sig, rfl, rfl, rfl, hpass⟩⟩
        | error e =>
          rw [ht] at h
          have h4 : (if e.isException = true then (Except.ok 2 : Except PyError Nat)
              else .error e) = .ok n := h
          cases hex : e.isException
          · rw [hex] at h4
            simp at h4
          · rw [hex] at h4
            simp at h4
            refine ⟨Or.inr (by omega), ?_⟩
            intro hn
            exfalso
            omega

/-- Witness for C10 at a successful Ed25519 verification. -/
theorem verify_signature_return_invariant_witness :
    ((0 : Nat) = 0 ∨ (0 : Nat) = 2) ∧
    ((0 : Nat) = 0 → ∃ digest key sig,
      sha256_of_file (fsOf [("a.bin", .raw [104, 105]),
        ("a.sig", .raw (toySig 0 7 (sha256_of_bytes [104, 105]))),
        ("pub.pem", .pem (.pubKey ⟨.ed25519, 7⟩))]) "a.bin" = .ok digest ∧
      load_public_key (fsOf [("a.bin", .raw [104, 105]),
        ("a.sig", .raw (toySig 0 7 (sha256_of_bytes [104, 105]))),
        ("pub.pem", .pem (.pubKey ⟨.ed25519, 7⟩))]) "pub.pem" = .ok key ∧
      readFile (fsOf [("a.bin", .raw [104, 105]),
        ("a.sig", .raw (toySig 0 7 (sha256_of_bytes [104, 105]))),
        ("pub.pem", .pem (.pubKey ⟨.ed25519, 7⟩))]) "a.sig" = .ok sig ∧
      schemeVerifyPassed toyLib key sig digest = true) :=
  verify_signature_return_invariant toyLib
    (fsOf [("a.bin", .raw [104, 105]),
      ("a.sig", .raw (toySig 0 7 (sha256_of_bytes [104, 105]))),
      ("pub.pem", .pem (.pubKey ⟨.ed25519, 7⟩))])
    "a.bin" "a.sig" "pub.pem" 0 (by decide)
